import Mathlib

set_option linter.unusedSectionVars false

/-!
Verification of the `discovery-rs` interactive service-discovery dashboard.

The development shallowly embeds the state-carrying core of the repository:

* `src/search.rs` — the `Search` input buffer and `compile_regex`;
* `src/list.rs` — the `ListWidget` filtered selectable collection
  (push/remove/next/prev/top/bottom/select_delta/update_filter/selected,
  and `process_key_event`, its input mode machine);
* `src/main.rs` — the `App` controller (tab switching and key routing),
  the background aggregator's `event_handler`, and the straight-line
  effect order of `main`/`App::shutdown`.

The `regex` crate is an external dependency; its boundary is modelled by
a `RegexModel` record (a type of compiled patterns, a fallible compiler,
and a matcher).  All theorems about the collection are proved for every
such model; concrete evaluations use `litModel`, in which a pattern is
valid iff it is purely alphanumeric and matches by literal substring —
this agrees with the real `regex` crate on every concrete pattern used
below (for instance `"b"` is valid and matches strings containing `b`,
while `"a("` fails to compile).
-/

namespace DiscoveryRs

/-- Model of the boundary of the external `regex` crate: a type of
compiled patterns, a compiler (`Regex::new`, `none` modelling a parse
error) and a matcher (`Regex::is_match`). -/
structure RegexModel where
  Regex : Type
  new : String → Option Regex
  is_match : Regex → String → Bool

/-- Mode of a `ListWidget` (`enum Mode` in `src/list.rs`): `display` is
the browsing mode, `search` the search-entry mode. -/
inductive Mode where
  | display
  | search
deriving DecidableEq

/-- Key codes relevant to `process_key_event` and `App::run`
(the subset of `crossterm::event::KeyCode` the source matches on). -/
inductive Key where
  | esc
  | enter
  | backspace
  | down
  | up
  | tab
  | char (c : Char)
  | other
deriving DecidableEq

/-- The search-entry buffer (`struct Search` in `src/search.rs`):
`none` means no buffer under construction. -/
structure Search where
  search : Option String
deriving DecidableEq

namespace Search

/-- Rust `String::pop`: drop the last character. -/
def strPop (s : String) : String := String.mk s.data.dropLast

/-- Model of `Search::compile_regex` (`src/search.rs:18-25`): compile
the buffer if present; `Except.error` models the `?` propagation of a
regex parse failure (`anyhow::Result`). -/
def compile_regex (M : RegexModel) (s : Search) : Except Unit (Option M.Regex) :=
  match s.search with
  | some text =>
    match M.new text with
    | some regex => Except.ok (some regex)
    | none => Except.error ()
  | none => Except.ok none

/-- Model of `Search::process_key_event` (`src/search.rs:37-59`): a
character is appended (or starts a buffer), backspace pops, and a buffer
edited down to the empty string becomes absent. -/
def process_key_event (s : Search) (k : Key) : Search :=
  let s' : Option String :=
    match s.search, k with
    | some text, Key.char c => some (text.push c)
    | some text, Key.backspace => some (strPop text)
    | none, Key.char c => some (String.mk [c])
    | st, _ => st
  if (s'.filter (fun text => !text.data.isEmpty)).isNone then
    ⟨none⟩
  else
    ⟨s'⟩

end Search

/-- The `ListEntry` trait of `src/list.rs`: an identity string per item.
For `String` (via the blanket `Display` impl) the id is the string
itself; for `Info` it is the host name. -/
class ListEntry (Item : Type) where
  id : Item → String

instance : ListEntry String := ⟨fun s => s⟩

/-- The filtered selectable collection (`struct ListWidget` in
`src/list.rs`).  `state` models `ListState::selected` — the optional
cursor index into the *filtered* view. -/
structure ListWidget (M : RegexModel) (Item : Type) where
  name : String
  items : List Item
  state : Option Nat
  search_regex : Option M.Regex
  search : Search
  current_mode : Mode

variable {M : RegexModel} {Item : Type}

namespace ListWidget

/-- The `Default` impl for `ListWidget` (`src/list.rs:53-64`): empty
items, no selection, no filter, empty search, display mode. -/
def default : ListWidget M Item :=
  ⟨"ListWidget", [], none, none, ⟨none⟩, Mode.display⟩

variable [ListEntry Item] [BEq Item]

/-- Model of `ListWidget::filtered` (`src/list.rs:148-157`): the items
whose id matches the active pattern, in stored order; all items when no
pattern is active. -/
def filtered (w : ListWidget M Item) : List Item :=
  match w.search_regex with
  | some regex => w.items.filter (fun item => M.is_match regex (ListEntry.id item))
  | none => w.items

/-- Model of `ListWidget::selected` (`src/list.rs:75-80`): index the
filtered view at the cursor, defaulting the absent cursor to 0
(`unwrap_or(0)` in the source). -/
def selected (w : ListWidget M Item) : Option Item :=
  (filtered w).get? (w.state.getD 0)

/-- Model of `ListWidget::push` (`src/list.rs:82-92`): append unless an
equal item is already present; then select position 0 if nothing is
selected yet. -/
def push (w : ListWidget M Item) (item : Item) : ListWidget M Item :=
  let items := if w.items.contains item then w.items else w.items ++ [item]
  let st := if w.state.isNone then some 0 else w.state
  { w with items := items, state := st }

/-- Model of `ListWidget::remove` (`src/list.rs:94-103`): remove the
first element whose id equals the argument, then deselect when all the
items are gone. -/
def remove (w : ListWidget M Item) (id : String) : ListWidget M Item :=
  let items :=
    match w.items.findIdx? (fun el => ListEntry.id el == id) with
    | some index => w.items.eraseIdx index
    | none => w.items
  let st := if items.isEmpty then none else w.state
  { w with items := items, state := st }

/-- Model of `ListWidget::select_delta` (`src/list.rs:125-146`): no-op
on an empty filtered view; otherwise wraparound movement by `delta`
using Euclidean remainder (`isize::rem_euclid`), with an absent cursor
mapped to position 0. -/
def select_delta (w : ListWidget M Item) (delta : Int) : ListWidget M Item :=
  let f := filtered w
  if f.isEmpty then w
  else
    let len : Int := f.length
    let index : Nat :=
      match w.state with
      | some i => (((i : Int) + delta) % len).toNat
      | none => 0
    { w with state := some index }

/-- Model of `ListWidget::next` (`src/list.rs:105-107`). -/
def next (w : ListWidget M Item) : ListWidget M Item := w.select_delta 1

/-- Model of `ListWidget::prev` (`src/list.rs:109-111`). -/
def prev (w : ListWidget M Item) : ListWidget M Item := w.select_delta (-1)

/-- Model of `ListWidget::top` (`src/list.rs:113-116`): move by the
negated current cursor offset. -/
def top (w : ListWidget M Item) : ListWidget M Item :=
  w.select_delta (-(w.state.getD 0 : Int))

/-- Model of `ListWidget::bottom` (`src/list.rs:118-121`): move by the
current cursor offset (the source passes `+s`, not `len - 1 - s`). -/
def bottom (w : ListWidget M Item) : ListWidget M Item :=
  w.select_delta (w.state.getD 0 : Int)

/-- Model of `ListWidget::update_filter` (`src/list.rs:159-167`):
replace the active pattern, then select position 0 if the new filtered
view is non-empty (the selection is left untouched otherwise). -/
def update_filter (w : ListWidget M Item) (regex : Option M.Regex) : ListWidget M Item :=
  let w1 := { w with search_regex := regex }
  if (filtered w1).isEmpty then w1 else { w1 with state := some 0 }

/-- Rust `Result::ok().flatten()` as used on `compile_regex`'s result in
`src/list.rs:198`. -/
def okFlatten (r : Except Unit (Option M.Regex)) : Option M.Regex :=
  match r with
  | Except.ok o => o
  | Except.error _ => none

/-- Model of `ListWidget::process_key_event` (`src/list.rs:190-214`):
the input mode machine.  In search mode: Esc returns to display mode,
Enter returns to display mode and applies the compiled buffer via
`update_filter`, characters and backspace edit the buffer.  In display
mode: arrows move, `g`/`G` jump, `/` enters search mode. -/
def process_key_event (w : ListWidget M Item) (k : Key) : ListWidget M Item :=
  match w.current_mode with
  | Mode.search =>
    match k with
    | Key.esc => { w with current_mode := Mode.display }
    | Key.enter =>
      let w1 := { w with current_mode := Mode.display }
      w1.update_filter (okFlatten (Search.compile_regex M w1.search))
    | Key.char _ => { w with search := w.search.process_key_event k }
    | Key.backspace => { w with search := w.search.process_key_event k }
    | _ => w
  | Mode.display =>
    match k with
    | Key.down => w.next
    | Key.up => w.prev
    | Key.char c =>
      if c = 'g' then w.top
      else if c = 'G' then w.bottom
      else if c = '/' then { w with current_mode := Mode.search }
      else w
    | _ => w

end ListWidget

/-- One public operation on a `ListWidget`, as invokable from outside
`src/list.rs` (key events cover the search mode machine and
`update_filter`). -/
inductive Op (Item : Type) where
  | push (item : Item)
  | remove (id : String)
  | next
  | prev
  | top
  | bottom
  | key (k : Key)

/-- Apply one public operation. -/
def applyOp [ListEntry Item] [BEq Item] (w : ListWidget M Item) : Op Item → ListWidget M Item
  | Op.push item => w.push item
  | Op.remove id => w.remove id
  | Op.next => w.next
  | Op.prev => w.prev
  | Op.top => w.top
  | Op.bottom => w.bottom
  | Op.key k => w.process_key_event k

/-- The widget obtained by running a sequence of public operations from
the default (empty) widget. -/
def applyOps (M : RegexModel) {Item : Type} [ListEntry Item] [BEq Item]
    (ops : List (Op Item)) : ListWidget M Item :=
  ops.foldl applyOp ListWidget.default

/-- Literal-substring instantiation of the regex boundary: a pattern is
valid iff purely alphanumeric and matches iff it occurs as a contiguous
substring.  Agrees with the `regex` crate on the concrete patterns used
in this file. -/
def litContains : List Char → List Char → Bool
  | pat, [] => pat.isEmpty
  | pat, c :: rest => pat.isPrefixOf (c :: rest) || litContains pat rest

@[reducible] def litModel : RegexModel where
  Regex := String
  new := fun s => if s.data.all Char.isAlphanum then some s else none
  is_match := fun r s => litContains r.data s.data

/-- Observable part of `mdns_sd::ServiceInfo` (external collaborator):
the accessors the core calls are `get_hostname` (identity) and
`get_type` (the category an instance belongs to). -/
structure ServiceInfo where
  hostname : String
  stype : String
deriving DecidableEq

/-- The `Info` wrapper of `src/info.rs`: equality (`PartialEq`) is by
host name only, and `ListEntry::id` is the host name. -/
structure Info where
  info : ServiceInfo

instance : BEq Info := ⟨fun a b => a.info.hostname == b.info.hostname⟩

instance : ListEntry Info := ⟨fun i => i.info.hostname⟩

/-- Association-list model of `std::collections::HashMap` as used in
`src/main.rs` (`insert` replaces an existing key's value, `remove`
drops the entry, `get_mut` mutates in place when the key is present). -/
def mapInsert {B : Type} : List (String × B) → String → B → List (String × B)
  | [], k, v => [(k, v)]
  | (k', v') :: rest, k, v =>
    if k' == k then (k, v) :: rest else (k', v') :: mapInsert rest k v

/-- HashMap removal: drop the entry with the given key. -/
def mapRemove {B : Type} (m : List (String × B)) (k : String) : List (String × B) :=
  m.filter (fun p => !(p.1 == k))

/-- HashMap lookup. -/
def mapGet {B : Type} : List (String × B) → String → Option B
  | [], _ => none
  | (k', v') :: rest, k => if k' == k then some v' else mapGet rest k

/-- HashMap `get_mut` followed by an update: apply `f` to the value when
the key is present, leave the map unchanged otherwise. -/
def mapUpdate {B : Type} (m : List (String × B)) (k : String) (f : B → B) : List (String × B) :=
  m.map (fun p => if p.1 == k then (p.1, f p.2) else p)

/-- Keys of the map, in insertion order. -/
def mapKeys {B : Type} (m : List (String × B)) : List String := m.map Prod.fst

/-- Tagged events delivered by an `mdns_sd` event source
(`mdns_sd::ServiceEvent`, matched in `src/main.rs:151-209`). -/
inductive ServiceEvent where
  | serviceFound (service_type full_name : String)
  | serviceResolved (info : ServiceInfo)
  | serviceRemoved (service_type full_name : String)
  | searchStarted (service : String)
  | searchStopped (service : String)

/-- The shared collections folded by the background thread
(`src/main.rs:135-146`): the service (category) collection, the
category→instances map, and the registry of event sources, modelled by
the list of browsed names (the root query plus one per found category).
-/
structure SharedState (M : RegexModel) where
  services : ListWidget M String
  instances : List (String × ListWidget M Info)
  receivers : List String

/-- Shared state right after `App::new` set up the root browse
(`src/main.rs:133-146`): empty collections, one root event source.
`ListWidget::new()` is not present in `src/list.rs`; the initial
collection is the `Default` widget (empty items, no cursor, no filter),
as the spec's "Starting from empty shared collections" requires. -/
def initialShared (M : RegexModel) (query : String) : SharedState M :=
  ⟨ListWidget.default, [], [query]⟩

/-- Model of the aggregator's `event_handler` closure
(`src/main.rs:149-212`).  A found category matching the query is pushed
into the service collection, given a fresh empty instance collection,
and a new scoped event source is registered; a resolved instance is
pushed into its category's collection if tracked; a removal matching the
query drops both the category and its map entry, any other removal is
treated as instance-scoped; search-lifecycle events only log.  (`Err`
results from an event source are ignored by the `if let Ok` guard and
leave the state unchanged.) -/
def event_handler (M : RegexModel) (query : String) (st : SharedState M) :
    ServiceEvent → SharedState M
  | ServiceEvent.serviceFound service_type full_name =>
    if service_type == query then
      { st with
          services := st.services.push full_name,
          instances := mapInsert st.instances full_name ListWidget.default,
          receivers := st.receivers ++ [full_name] }
    else st
  | ServiceEvent.serviceResolved info =>
    match mapGet st.instances info.stype with
    | some _ =>
      { st with instances := mapUpdate st.instances info.stype (fun w => w.push ⟨info⟩) }
    | none => st
  | ServiceEvent.serviceRemoved service_type full_name =>
    if service_type == query then
      { st with
          services := st.services.remove full_name,
          instances := mapRemove st.instances full_name }
    else
      match mapGet st.instances service_type with
      | some _ =>
        { st with instances := mapUpdate st.instances service_type (fun w => w.remove full_name) }
      | none => st
  | ServiceEvent.searchStarted _ => st
  | ServiceEvent.searchStopped _ => st

/-- The two panes (`enum Tab` in `src/main.rs:52-57`). -/
inductive Tab where
  | services
  | instances
deriving DecidableEq

/-- The application controller state (`struct App` in
`src/main.rs:59-65`, minus the daemon/stop handles that carry no
foreground-visible collection state). -/
structure App (M : RegexModel) where
  services : ListWidget M String
  instances : List (String × ListWidget M Info)
  current_tab : Tab

namespace App

variable {M : RegexModel}

/-- Model of `App::switch_tab` (`src/main.rs:414-419`): the current tab
is replaced by the other one. -/
def switch_tab (a : App M) : App M :=
  { a with
      current_tab :=
        match a.current_tab with
        | Tab.services => Tab.instances
        | Tab.instances => Tab.services }

/-- Model of `App::next` (`src/main.rs:302-328`): delegate to the
service collection on the Services tab; on the Instances tab, to the
instance collection of the currently selected service, a no-op if no
service is selected or its collection is absent from the map. -/
def next (a : App M) : App M :=
  match a.current_tab with
  | Tab.services => { a with services := a.services.next }
  | Tab.instances =>
    match a.services.selected with
    | some sel => { a with instances := mapUpdate a.instances sel ListWidget.next }
    | none => a

/-- Model of `App::previous` (`src/main.rs:330-356`). -/
def previous (a : App M) : App M :=
  match a.current_tab with
  | Tab.services => { a with services := a.services.prev }
  | Tab.instances =>
    match a.services.selected with
    | some sel => { a with instances := mapUpdate a.instances sel ListWidget.prev }
    | none => a

/-- Model of `App::go_top` (`src/main.rs:358-384`). -/
def go_top (a : App M) : App M :=
  match a.current_tab with
  | Tab.services => { a with services := a.services.top }
  | Tab.instances =>
    match a.services.selected with
    | some sel => { a with instances := mapUpdate a.instances sel ListWidget.top }
    | none => a

/-- Model of `App::go_bottom` (`src/main.rs:386-412`). -/
def go_bottom (a : App M) : App M :=
  match a.current_tab with
  | Tab.services => { a with services := a.services.bottom }
  | Tab.instances =>
    match a.services.selected with
    | some sel => { a with instances := mapUpdate a.instances sel ListWidget.bottom }
    | none => a

end App

/-- Result of one key dispatch of `App::run`'s loop body
(`src/main.rs:240-261`): the loop either returns (exit) or continues
with the updated controller state. -/
inductive RunStep (M : RegexModel) where
  | exit
  | cont (a : App M)

/-- Model of the key dispatch in `App::run` (`src/main.rs:248-255`):
`q`/Esc exit, `j`/Down and `k`/Up move, Tab switches panes, `g`/`G`
jump; every other key is ignored. -/
def run_key {M : RegexModel} (a : App M) : Key → RunStep M
  | Key.char 'q' => RunStep.exit
  | Key.esc => RunStep.exit
  | Key.char 'j' => RunStep.cont a.next
  | Key.down => RunStep.cont a.next
  | Key.char 'k' => RunStep.cont a.previous
  | Key.up => RunStep.cont a.previous
  | Key.tab => RunStep.cont a.switch_tab
  | Key.char 'g' => RunStep.cont a.go_top
  | Key.char 'G' => RunStep.cont a.go_bottom
  | _ => RunStep.cont a

/-- Foreground effects relevant to shutdown ordering. -/
inductive Effect where
  | spawnDetached
  | runLoop
  | sendStop
  | joinBackground
  | mdnsShutdown
  | restoreTerminal
deriving DecidableEq

/-- The straight-line effect order of the foreground thread: `main`
(`src/main.rs:69-98`) calls `App::new` — which spawns the background
thread and drops the `JoinHandle` (`src/main.rs:145-228`) — then
`App::run`, then `App::shutdown` (`src/main.rs:268-275`), which sends
the stop signal and immediately calls `ServiceDaemon::shutdown`, and
finally `restore_terminal`.  No statement of the program joins the
background thread. -/
def main_effects : List Effect :=
  [Effect.spawnDetached, Effect.runLoop, Effect.sendStop,
   Effect.mdnsShutdown, Effect.restoreTerminal]

end DiscoveryRs

namespace DiscoveryRs

variable {M : RegexModel} {Item : Type}

/-- The implicit cursor invariant maintained by the code: the cursor is
absent exactly when the stored item list is empty. -/
def Inv [ListEntry Item] [BEq Item] (w : ListWidget M Item) : Prop :=
  w.state = none ↔ w.items = []

section InvariantLemmas

variable [ListEntry Item] [BEq Item]

lemma filtered_eq_nil_of_items {w : ListWidget M Item} (h : w.items = []) :
    ListWidget.filtered w = [] := by
  cases hr : w.search_regex <;> simp [ListWidget.filtered, hr, h]

lemma items_ne_nil_of_filtered {w : ListWidget M Item} (h : ListWidget.filtered w ≠ []) :
    w.items ≠ [] := fun hi => h (filtered_eq_nil_of_items hi)

lemma push_state_isSome (w : ListWidget M Item) (i : Item) :
    (w.push i).state.isSome = true := by
  cases h : w.state <;> simp [ListWidget.push, h]

lemma push_items_ne_nil (w : ListWidget M Item) (i : Item) :
    (w.push i).items ≠ [] := by
  simp only [ListWidget.push]
  split
  · next h =>
    cases hw : w.items with
    | nil => rw [hw] at h; simp at h
    | cons a l => simp [hw]
  · simp

lemma inv_push (w : ListWidget M Item) (i : Item) : Inv (w.push i) := by
  have h1 := push_state_isSome w i
  have h2 := push_items_ne_nil w i
  unfold Inv
  constructor
  · intro hs; rw [hs] at h1; simp at h1
  · intro hi; exact absurd hi h2

lemma inv_remove {w : ListWidget M Item} (h : Inv w) (id : String) :
    Inv (w.remove id) := by
  cases hw : w.items with
  | nil =>
    have : w.items.findIdx? (fun el => ListEntry.id el == id) = none := by
      rw [hw]; rfl
    simp [Inv, ListWidget.remove, this, hw]
  | cons a l =>
    simp only [Inv, ListWidget.remove]
    split
    · next he => simp_all [List.isEmpty_iff]
    · next he =>
      rw [List.isEmpty_iff] at he  -- does isEmpty_iff exist? fallback below
      constructor
      · intro hs
        exact absurd (h.mp hs) (by simp [hw])
      · intro hi; exact absurd hi he

lemma inv_select_delta {w : ListWidget M Item} (h : Inv w) (d : Int) :
    Inv (w.select_delta d) := by
  simp only [ListWidget.select_delta]
  split
  · exact h
  · next hne =>
    have : w.items ≠ [] := by
      apply items_ne_nil_of_filtered
      intro hnil
      rw [List.isEmpty_iff] at hne
      exact hne hnil
    simp [Inv, this]

lemma inv_update_filter {w : ListWidget M Item} (h : Inv w) (r : Option M.Regex) :
    Inv (w.update_filter r) := by
  simp only [ListWidget.update_filter]
  split
  · exact h
  · next hne =>
    have : w.items ≠ [] := by
      apply items_ne_nil_of_filtered (w := { w with search_regex := r })
      intro hnil
      rw [List.isEmpty_iff] at hne
      exact hne hnil
    simp [Inv, this]

lemma inv_process_key_event {w : ListWidget M Item} (h : Inv w) (k : Key) :
    Inv (w.process_key_event k) := by
  obtain ⟨nm, its, st, rgx, sr, md⟩ := w
  cases md with
  | search =>
    cases k with
    | esc => exact h
    | enter =>
      have h' : Inv (⟨nm, its, st, rgx, sr, Mode.display⟩ : ListWidget M Item) := h
      exact inv_update_filter h' (ListWidget.okFlatten (Search.compile_regex M sr))
    | backspace => exact h
    | char c => exact h
    | down => exact h
    | up => exact h
    | tab => exact h
    | other => exact h
  | display =>
    cases k with
    | down => exact inv_select_delta h 1
    | up => exact inv_select_delta h (-1)
    | char c =>
      dsimp only [ListWidget.process_key_event]
      split
      · exact inv_select_delta h _
      · split
        · exact inv_select_delta h _
        · split
          · exact h
          · exact h
    | esc => exact h
    | enter => exact h
    | backspace => exact h
    | tab => exact h
    | other => exact h

lemma inv_applyOp {w : ListWidget M Item} (h : Inv w) (op : Op Item) :
    Inv (applyOp w op) := by
  cases op with
  | push i => exact inv_push w i
  | remove id => exact inv_remove h id
  | next => exact inv_select_delta h 1
  | prev => exact inv_select_delta h (-1)
  | top => exact inv_select_delta h _
  | bottom => exact inv_select_delta h _
  | key k => exact inv_process_key_event h k

lemma inv_foldl {w : ListWidget M Item} (h : Inv w) (ops : List (Op Item)) :
    Inv (ops.foldl applyOp w) := by
  induction ops generalizing w with
  | nil => exact h
  | cons op rest ih => exact ih (inv_applyOp h op)

lemma inv_default : Inv (ListWidget.default : ListWidget M Item) := by
  simp [Inv, ListWidget.default]

lemma inv_applyOps (ops : List (Op Item)) : Inv (applyOps M ops) :=
  inv_foldl inv_default ops

end InvariantLemmas

end DiscoveryRs

namespace DiscoveryRs

variable {M : RegexModel} {Item : Type}

section OperationLemmas

variable [ListEntry Item] [BEq Item]

lemma isEmpty_false_of_ne_nil {α : Type} {l : List α} (h : l ≠ []) :
    l.isEmpty = false := by
  cases l with
  | nil => exact absurd rfl h
  | cons a t => rfl

lemma filtered_select_delta (w : ListWidget M Item) (d : Int) :
    ListWidget.filtered (w.select_delta d) = ListWidget.filtered w := by
  dsimp only [ListWidget.select_delta]
  split <;> rfl

lemma select_delta_state {w : ListWidget M Item} {c : Nat}
    (hne : ListWidget.filtered w ≠ []) (hst : w.state = some c) (d : Int) :
    (w.select_delta d).state
      = some ((((c : Int) + d) % ((ListWidget.filtered w).length : Int)).toNat) := by
  dsimp only [ListWidget.select_delta]
  rw [isEmpty_false_of_ne_nil hne]
  simp only [hst]
  rfl

lemma update_filter_search_regex (w : ListWidget M Item) (r : Option M.Regex) :
    (w.update_filter r).search_regex = r := by
  dsimp only [ListWidget.update_filter]
  split <;> rfl

lemma update_filter_mode (w : ListWidget M Item) (r : Option M.Regex) :
    (w.update_filter r).current_mode = w.current_mode := by
  dsimp only [ListWidget.update_filter]
  split <;> rfl

lemma update_filter_filtered (w : ListWidget M Item) (r : Option M.Regex) :
    ListWidget.filtered (w.update_filter r)
      = ListWidget.filtered { w with search_regex := r } := by
  dsimp only [ListWidget.update_filter]
  split <;> rfl

lemma emod_roundtrip (c L : Nat) (d : Int) (hc : c < L) :
    (((((c : Int) + d) % (L : Int)).toNat : Int) + (-d)) % (L : Int) = (c : Int) := by
  have hL : (0 : Int) < (L : Int) := by
    exact_mod_cast Nat.lt_of_le_of_lt (Nat.zero_le c) hc
  have hLne : (L : Int) ≠ 0 := ne_of_gt hL
  have hnn : 0 ≤ ((c : Int) + d) % (L : Int) := Int.emod_nonneg _ hLne
  rw [Int.toNat_of_nonneg hnn, ← sub_eq_add_neg, Int.sub_emod,
    Int.emod_emod_of_dvd _ dvd_rfl, ← Int.sub_emod, add_sub_cancel_right]
  exact Int.emod_eq_of_lt (by positivity) (by exact_mod_cast hc)

end OperationLemmas

/-- C7: for every collection whose filtered view is non-empty (length
L) and every signed delta d, with a valid cursor at c, `moveBy(d)`
(that is, `select_delta`) computes `(c + d) mod L`, and `moveBy(d)` then
`moveBy(-d)` returns the cursor to its original position. -/
theorem c7_moveBy_roundtrip (M : RegexModel) {It : Type} [ListEntry It] [BEq It]
    (w : ListWidget M It) (c : Nat) (d : Int)
    (hne : ListWidget.filtered w ≠ []) (hst : w.state = some c)
    (hc : c < (ListWidget.filtered w).length) :
    (w.select_delta d).state
      = some ((((c : Int) + d) % ((ListWidget.filtered w).length : Int)).toNat)
    ∧ ((w.select_delta d).select_delta (-d)).state = some c := by
  have h1 := select_delta_state hne hst d
  refine ⟨h1, ?_⟩
  have hf : ListWidget.filtered (w.select_delta d) = ListWidget.filtered w :=
    filtered_select_delta w d
  have hne2 : ListWidget.filtered (w.select_delta d) ≠ [] := by rw [hf]; exact hne
  have h2 := select_delta_state hne2 h1 (-d)
  rw [h2, hf]
  have h3 := emod_roundtrip c (ListWidget.filtered w).length d hc
  rw [h3]
  simp

/-- Witness for C7: with three items, cursor at 1, round-tripping by
delta 5 restores cursor 1. -/
theorem c7_witness :
    (ListWidget.filtered (applyOps litModel [Op.push "a", Op.push "b", Op.push "c",
        Op.key Key.down]) ≠ []
      ∧ (applyOps litModel [Op.push "a", Op.push "b", Op.push "c",
        Op.key Key.down]).state = some 1
      ∧ 1 < (ListWidget.filtered (applyOps litModel [Op.push "a", Op.push "b", Op.push "c",
        Op.key Key.down])).length)
    ∧ (((applyOps litModel [Op.push "a", Op.push "b", Op.push "c",
        Op.key Key.down]).select_delta 5).select_delta (-5)).state = some 1 :=
  ⟨⟨by decide, by decide, by decide⟩,
    (c7_moveBy_roundtrip litModel
      (applyOps litModel [Op.push "a", Op.push "b", Op.push "c", Op.key Key.down])
      1 5 (by decide) (by decide) (by decide)).2⟩

/-- C3: `selected()` returns the item at the cursor position within the
filtered view when a cursor is present, and (over every state reachable
by public operations) returns nothing when no cursor is present. -/
theorem c3_selected_spec (M : RegexModel) {It : Type} [ListEntry It] [BEq It]
    (ops : List (Op It)) :
    (∀ c : Nat, (applyOps M ops).state = some c →
      (applyOps M ops).selected = (ListWidget.filtered (applyOps M ops)).get? c)
    ∧ ((applyOps M ops).state = none → (applyOps M ops).selected = none) := by
  constructor
  · intro c hc
    simp only [ListWidget.selected, hc, Option.getD_some]
  · intro h
    have hinv : Inv (applyOps M ops) := inv_applyOps ops
    have hitems : (applyOps M ops).items = [] := hinv.mp h
    have hfil : ListWidget.filtered (applyOps M ops) = [] :=
      filtered_eq_nil_of_items hitems
    simp [ListWidget.selected, hfil]

/-- Witness for C3: after one push the cursor is 0 and `selected`
returns the item at position 0 of the filtered view. -/
theorem c3_witness :
    (applyOps litModel [Op.push "a"]).state = some 0
    ∧ (applyOps litModel [Op.push "a"]).selected
      = (ListWidget.filtered (applyOps litModel [Op.push "a"])).get? 0 :=
  ⟨by decide, (c3_selected_spec litModel [Op.push "a"]).1 0 (by decide)⟩

/-- C10: on every reachable state, a non-empty stored list implies the
cursor is present; and `push` always leaves a cursor present. -/
theorem c10_cursor_iff_items (M : RegexModel) {It : Type} [ListEntry It] [BEq It] :
    (∀ ops : List (Op It),
      (applyOps M ops).items ≠ [] → (applyOps M ops).state.isSome = true)
    ∧ (∀ (w : ListWidget M It) (i : It), (w.push i).state.isSome = true) := by
  constructor
  · intro ops hne
    have hinv : Inv (applyOps M ops) := inv_applyOps ops
    cases hs : (applyOps M ops).state with
    | none => exact absurd (hinv.mp hs) hne
    | some c => rfl
  · exact push_state_isSome

/-- Witness for C10. -/
theorem c10_witness :
    (applyOps litModel [Op.push "x"]).items ≠ ([] : List String)
    ∧ (applyOps litModel [Op.push "x"]).state.isSome = true :=
  ⟨by decide, (c10_cursor_iff_items litModel).1 [Op.push "x"] (by decide)⟩

/-- C2 counterexample: push `"a"`, then apply the filter `"b"` through
the key machine (`/`, `b`, Enter).  The filtered view becomes empty, yet
the cursor stays present at 0 — it is neither a valid index into the
filtered view nor cleared, refuting the claimed invariant. -/
theorem c2_counterexample :
    (applyOps litModel [Op.push "a", Op.key (Key.char '/'), Op.key (Key.char 'b'),
        Op.key Key.enter]).state = some 0
    ∧ ListWidget.filtered (applyOps litModel [Op.push "a", Op.key (Key.char '/'),
        Op.key (Key.char 'b'), Op.key Key.enter]) = ([] : List String) := by
  decide

/-- C2 amended: the cursor is cleared exactly when the stored list (not
the filtered view) becomes empty, and a filter change resets the cursor
to 0 exactly when the new filtered view is non-empty; after a removal or
filter change the cursor may dangle past the filtered view's end. -/
theorem c2_amended_cursor_invariant (M : RegexModel) {It : Type} [ListEntry It] [BEq It] :
    (∀ ops : List (Op It),
      ((applyOps M ops).state = none ↔ (applyOps M ops).items = []))
    ∧ (∀ (w : ListWidget M It) (r : Option M.Regex),
        ListWidget.filtered (w.update_filter r) ≠ [] → (w.update_filter r).state = some 0) := by
  constructor
  · intro ops
    exact inv_applyOps ops
  · intro w r hne
    rw [update_filter_filtered] at hne
    have hb := isEmpty_false_of_ne_nil hne
    dsimp only [ListWidget.update_filter]
    rw [hb]
    rfl

/-- Witness for C2's amended statement. -/
theorem c2_witness :
    ListWidget.filtered ((applyOps litModel [Op.push "a"]).update_filter none) ≠ []
    ∧ ((applyOps litModel [Op.push "a"]).update_filter none).state = some 0 :=
  ⟨by decide,
    (c2_amended_cursor_invariant litModel).2 (applyOps litModel [Op.push "a"]) none (by decide)⟩

end DiscoveryRs

namespace DiscoveryRs

/-- C1 counterexample: apply the valid filter `"a"` (keys `/`, `a`,
Enter), then re-enter search mode and extend the buffer to the invalid
pattern `"a("` and confirm.  The previously active filter does not stay
in effect: it is cleared to `none`. -/
theorem c1_counterexample :
    (applyOps litModel [Op.push "ab", Op.key (Key.char '/'), Op.key (Key.char 'a'),
        Op.key Key.enter]).search_regex = some "a"
    ∧ (applyOps litModel [Op.push "ab", Op.key (Key.char '/'), Op.key (Key.char 'a'),
        Op.key Key.enter, Op.key (Key.char '/'), Op.key (Key.char '('),
        Op.key Key.enter]).search_regex = none := by
  decide

/-- C1 amended: when the filter is confirmed with a buffer that does not
compile, `update_filter(None)` is applied: the previous filter is
cleared (as if no filter were set) rather than kept, and the widget
returns to browsing mode. -/
theorem c1_amended_invalid_clears (M : RegexModel) {It : Type} [ListEntry It] [BEq It]
    (w : ListWidget M It) (s : String)
    (hm : w.current_mode = Mode.search) (hs : w.search.search = some s)
    (hbad : M.new s = none) :
    (w.process_key_event Key.enter).search_regex = none
    ∧ (w.process_key_event Key.enter).current_mode = Mode.display := by
  obtain ⟨nm, its, st, rgx, sr, md⟩ := w
  obtain ⟨srs⟩ := sr
  change md = Mode.search at hm
  change srs = some s at hs
  subst hm
  subst hs
  have hc : Search.compile_regex M ⟨some s⟩ = Except.error () := by
    dsimp only [Search.compile_regex]
    rw [hbad]
  dsimp only [ListWidget.process_key_event]
  rw [hc]
  constructor
  · rw [update_filter_search_regex]
    rfl
  · rw [update_filter_mode]

/-- Witness for C1's amended statement: confirming the invalid buffer
`"("` clears the filter. -/
theorem c1_witness :
    ((applyOps litModel [Op.push "ab", Op.key (Key.char '/'),
        Op.key (Key.char '(')]).current_mode = Mode.search
      ∧ (applyOps litModel [Op.push "ab", Op.key (Key.char '/'),
        Op.key (Key.char '(')]).search.search = some "("
      ∧ litModel.new "(" = none)
    ∧ ((applyOps litModel [Op.push "ab", Op.key (Key.char '/'),
        Op.key (Key.char '(')]).process_key_event Key.enter).search_regex = none :=
  ⟨⟨by decide, by decide, by decide⟩,
    (c1_amended_invalid_clears litModel
      (applyOps litModel [Op.push "ab", Op.key (Key.char '/'), Op.key (Key.char '(')])
      "(" (by decide) (by decide) (by decide)).1⟩

/-- C6 counterexample: enter search mode, type `x`, press Esc.  The mode
returns to browsing, but the in-progress buffer is retained (`some "x"`),
not discarded. -/
theorem c6_counterexample :
    (applyOps litModel ([Op.key (Key.char '/'), Op.key (Key.char 'x'),
        Op.key Key.esc] : List (Op String))).current_mode = Mode.display
    ∧ (applyOps litModel ([Op.key (Key.char '/'), Op.key (Key.char 'x'),
        Op.key Key.esc] : List (Op String))).search.search = some "x"
    ∧ (applyOps litModel ([Op.key (Key.char '/'), Op.key (Key.char 'x'),
        Op.key Key.esc] : List (Op String))).search.search ≠ none := by
  decide

/-- C6 amended: in search mode the cancel key returns the machine to
browsing mode and leaves the active filter unchanged, but the
in-progress buffer is retained rather than discarded (items and cursor
are also untouched). -/
theorem c6_amended_esc (M : RegexModel) {It : Type} [ListEntry It] [BEq It]
    (w : ListWidget M It) (hm : w.current_mode = Mode.search) :
    (w.process_key_event Key.esc).current_mode = Mode.display
    ∧ (w.process_key_event Key.esc).search = w.search
    ∧ (w.process_key_event Key.esc).search_regex = w.search_regex
    ∧ (w.process_key_event Key.esc).items = w.items
    ∧ (w.process_key_event Key.esc).state = w.state := by
  obtain ⟨nm, its, st, rgx, sr, md⟩ := w
  change md = Mode.search at hm
  subst hm
  exact ⟨rfl, rfl, rfl, rfl, rfl⟩

/-- Witness for C6's amended statement. -/
theorem c6_witness :
    ((applyOps litModel ([Op.key (Key.char '/'), Op.key (Key.char 'x')] :
        List (Op String))).current_mode = Mode.search)
    ∧ ((applyOps litModel ([Op.key (Key.char '/'), Op.key (Key.char 'x')] :
        List (Op String))).process_key_event Key.esc).current_mode = Mode.display
    ∧ ((applyOps litModel ([Op.key (Key.char '/'), Op.key (Key.char 'x')] :
        List (Op String))).process_key_event Key.esc).search
      = (applyOps litModel ([Op.key (Key.char '/'), Op.key (Key.char 'x')] :
        List (Op String))).search :=
  ⟨by decide,
    (c6_amended_esc litModel
      (applyOps litModel ([Op.key (Key.char '/'), Op.key (Key.char 'x')] :
        List (Op String))) (by decide)).1,
    (c6_amended_esc litModel
      (applyOps litModel ([Op.key (Key.char '/'), Op.key (Key.char 'x')] :
        List (Op String))) (by decide)).2.1⟩

/-- C4: evaluation of the code at the failing input.  With a filtered
view of length 4 and the cursor at 1, `bottom()` (which passes `+cursor`
to `select_delta`, computing `(c + c) mod L`) moves the cursor to 2, not
to the last position 3; `top()` does land on 0. -/
theorem c4_bottom_eval :
    (ListWidget.filtered (applyOps litModel [Op.push "a", Op.push "b", Op.push "c",
        Op.push "d", Op.key Key.down])).length = 4
    ∧ (applyOps litModel [Op.push "a", Op.push "b", Op.push "c", Op.push "d",
        Op.key Key.down]).state = some 1
    ∧ (ListWidget.bottom (applyOps litModel [Op.push "a", Op.push "b", Op.push "c",
        Op.push "d", Op.key Key.down])).state = some 2
    ∧ (ListWidget.bottom (applyOps litModel [Op.push "a", Op.push "b", Op.push "c",
        Op.push "d", Op.key Key.down])).state ≠ some 3
    ∧ (ListWidget.top (applyOps litModel [Op.push "a", Op.push "b", Op.push "c",
        Op.push "d", Op.key Key.down])).state = some 0 := by
  decide

/-- C5: starting from empty shared collections with query `"_http"`,
processing Found("_http","host-a"), Found("_http","host-b"),
Removed("_http","host-a") leaves the category collection containing
exactly `"host-b"`, and the instance map holds exactly the entry for
`"host-b"` (created empty by the Found handler). -/
theorem c5_scenario :
    (([ServiceEvent.serviceFound "_http" "host-a",
        ServiceEvent.serviceFound "_http" "host-b",
        ServiceEvent.serviceRemoved "_http" "host-a"].foldl
        (event_handler litModel "_http") (initialShared litModel "_http")).services.items
      = ["host-b"])
    ∧ (mapKeys (([ServiceEvent.serviceFound "_http" "host-a",
        ServiceEvent.serviceFound "_http" "host-b",
        ServiceEvent.serviceRemoved "_http" "host-a"].foldl
        (event_handler litModel "_http") (initialShared litModel "_http")).instances)
      = ["host-b"])
    ∧ (([ServiceEvent.serviceFound "_http" "host-a",
        ServiceEvent.serviceFound "_http" "host-b",
        ServiceEvent.serviceRemoved "_http" "host-a"].foldl
        (event_handler litModel "_http") (initialShared litModel "_http")).services.items.length
      = 1) := by
  decide

/-- C8 counterexample: the pane-switch key does not map to one specific
tab — `switch_tab` yields a different tab depending on the current one
(it toggles) — and not all other keys are delegated to the active tab's
collection: the `/` key, meaningful to the collection (it would switch
it into search mode), is dropped by the controller, which returns the
state unchanged. -/
theorem c8_counterexample :
    (App.switch_tab (⟨ListWidget.default, [], Tab.services⟩ : App litModel)).current_tab
      = Tab.instances
    ∧ (App.switch_tab (⟨ListWidget.default, [], Tab.instances⟩ : App litModel)).current_tab
      = Tab.services
    ∧ (App.switch_tab (⟨ListWidget.default, [], Tab.services⟩ : App litModel)).current_tab
      ≠ (App.switch_tab (⟨ListWidget.default, [], Tab.instances⟩ : App litModel)).current_tab
    ∧ run_key (⟨ListWidget.default, [], Tab.services⟩ : App litModel) (Key.char '/')
      = RunStep.cont (⟨ListWidget.default, [], Tab.services⟩ : App litModel)
    ∧ ((⟨ListWidget.default, [], Tab.services⟩ :
        App litModel).services.process_key_event (Key.char '/')).current_mode = Mode.search
    ∧ (⟨ListWidget.default, [], Tab.services⟩ :
        App litModel).services.current_mode = Mode.display :=
  ⟨by decide, by decide, by decide, rfl, by decide, by decide⟩

/-- C8 amended: the single pane-switch key (Tab) toggles between the two
tabs rather than mapping to a specific one.  Not all other keys are
delegated: only the navigation keys (j/Down, k/Up, g, G) are delegated
to the collection of the active tab — the service collection on
Services, the instance collection of the currently selected service on
Instances, a no-op when no service is selected — while q/Esc exit and
every remaining key is dropped by the controller without reaching any
collection. -/
theorem c8_amended_toggle (M : RegexModel) :
    (∀ a : App M, a.current_tab = Tab.services →
      (App.switch_tab a).current_tab = Tab.instances)
    ∧ (∀ a : App M, a.current_tab = Tab.instances →
      (App.switch_tab a).current_tab = Tab.services)
    ∧ (∀ a : App M, run_key a Key.tab = RunStep.cont a.switch_tab)
    ∧ (∀ a : App M, a.current_tab = Tab.services →
      run_key a Key.down = RunStep.cont { a with services := a.services.next }
      ∧ run_key a (Key.char 'j') = RunStep.cont { a with services := a.services.next }
      ∧ run_key a Key.up = RunStep.cont { a with services := a.services.prev }
      ∧ run_key a (Key.char 'k') = RunStep.cont { a with services := a.services.prev }
      ∧ run_key a (Key.char 'g') = RunStep.cont { a with services := a.services.top }
      ∧ run_key a (Key.char 'G') = RunStep.cont { a with services := a.services.bottom })
    ∧ (∀ (a : App M) (sel : String), a.current_tab = Tab.instances →
      a.services.selected = some sel →
      run_key a Key.down
        = RunStep.cont { a with instances := mapUpdate a.instances sel ListWidget.next }
      ∧ run_key a (Key.char 'j')
        = RunStep.cont { a with instances := mapUpdate a.instances sel ListWidget.next }
      ∧ run_key a Key.up
        = RunStep.cont { a with instances := mapUpdate a.instances sel ListWidget.prev }
      ∧ run_key a (Key.char 'k')
        = RunStep.cont { a with instances := mapUpdate a.instances sel ListWidget.prev }
      ∧ run_key a (Key.char 'g')
        = RunStep.cont { a with instances := mapUpdate a.instances sel ListWidget.top }
      ∧ run_key a (Key.char 'G')
        = RunStep.cont { a with instances := mapUpdate a.instances sel ListWidget.bottom })
    ∧ (∀ a : App M, a.current_tab = Tab.instances →
      a.services.selected = none →
      run_key a Key.down = RunStep.cont a
      ∧ run_key a (Key.char 'j') = RunStep.cont a
      ∧ run_key a Key.up = RunStep.cont a
      ∧ run_key a (Key.char 'k') = RunStep.cont a
      ∧ run_key a (Key.char 'g') = RunStep.cont a
      ∧ run_key a (Key.char 'G') = RunStep.cont a)
    ∧ (∀ a : App M, run_key a (Key.char 'q') = RunStep.exit
      ∧ run_key a Key.esc = RunStep.exit)
    ∧ (∀ (a : App M) (c : Char), c ∉ (['q', 'j', 'k', 'g', 'G'] : List Char) →
      run_key a (Key.char c) = RunStep.cont a)
    ∧ (∀ a : App M, run_key a Key.enter = RunStep.cont a
      ∧ run_key a Key.backspace = RunStep.cont a
      ∧ run_key a Key.other = RunStep.cont a) := by
  refine ⟨?_, ?_, ?_, ?_, ?_, ?_, ?_, ?_, ?_⟩
  · intro a h
    obtain ⟨sv, im, tb⟩ := a
    change tb = Tab.services at h
    subst h
    rfl
  · intro a h
    obtain ⟨sv, im, tb⟩ := a
    change tb = Tab.instances at h
    subst h
    rfl
  · intro a
    rfl
  · intro a h
    obtain ⟨sv, im, tb⟩ := a
    change tb = Tab.services at h
    subst h
    exact ⟨rfl, rfl, rfl, rfl, rfl, rfl⟩
  · intro a sel h hsel
    obtain ⟨sv, im, tb⟩ := a
    change tb = Tab.instances at h
    subst h
    change sv.selected = some sel at hsel
    refine ⟨?_, ?_, ?_, ?_, ?_, ?_⟩ <;>
      simp only [run_key, App.next, App.previous, App.go_top, App.go_bottom, hsel]
  · intro a h hsel
    obtain ⟨sv, im, tb⟩ := a
    change tb = Tab.instances at h
    subst h
    change sv.selected = none at hsel
    refine ⟨?_, ?_, ?_, ?_, ?_, ?_⟩ <;>
      simp only [run_key, App.next, App.previous, App.go_top, App.go_bottom, hsel]
  · intro a
    exact ⟨rfl, rfl⟩
  · intro a c hc
    simp only [List.mem_cons, List.not_mem_nil, or_false] at hc
    push_neg at hc
    obtain ⟨hq, hj, hk, hg, hG⟩ := hc
    unfold run_key
    split <;> simp_all
  · intro a
    exact ⟨rfl, rfl, rfl⟩

/-- Witness for C8's amended statement: concrete applications on both
tabs, with and without a selected service, and a dropped key. -/
theorem c8_witness :
    ((⟨ListWidget.default, [], Tab.services⟩ : App litModel).current_tab = Tab.services)
    ∧ (App.switch_tab (⟨ListWidget.default, [], Tab.services⟩ : App litModel)).current_tab
      = Tab.instances
    ∧ run_key (⟨ListWidget.default, [], Tab.services⟩ : App litModel) (Key.char 'j')
      = RunStep.cont { (⟨ListWidget.default, [], Tab.services⟩ : App litModel) with
          services := (⟨ListWidget.default, [], Tab.services⟩ :
            App litModel).services.next }
    ∧ ((⟨ListWidget.default, [], Tab.instances⟩ : App litModel).current_tab = Tab.instances
      ∧ (⟨ListWidget.default, [], Tab.instances⟩ : App litModel).services.selected = none
      ∧ run_key (⟨ListWidget.default, [], Tab.instances⟩ : App litModel) Key.down
        = RunStep.cont (⟨ListWidget.default, [], Tab.instances⟩ : App litModel))
    ∧ ('x' ∉ (['q', 'j', 'k', 'g', 'G'] : List Char)
      ∧ run_key (⟨ListWidget.default, [], Tab.services⟩ : App litModel) (Key.char 'x')
        = RunStep.cont (⟨ListWidget.default, [], Tab.services⟩ : App litModel)) :=
  ⟨rfl,
    (c8_amended_toggle litModel).1 ⟨ListWidget.default, [], Tab.services⟩ rfl,
    ((c8_amended_toggle litModel).2.2.2.1 ⟨ListWidget.default, [], Tab.services⟩ rfl).2.1,
    ⟨rfl, rfl,
      ((c8_amended_toggle litModel).2.2.2.2.2.1
        ⟨ListWidget.default, [], Tab.instances⟩ rfl rfl).1⟩,
    ⟨by decide,
      (c8_amended_toggle litModel).2.2.2.2.2.2.2.1
        ⟨ListWidget.default, [], Tab.services⟩ 'x' (by decide)⟩⟩

/-- C9 counterexample: no statement of the foreground thread joins the
background thread — the claimed blocking on the background thread's
completion before process exit does not happen. -/
theorem c9_counterexample : Effect.joinBackground ∉ main_effects := by
  decide

/-- C9 amended: the spawn handle is dropped, so the foreground never
joins the background thread; `App::shutdown` sends the stop signal and
then immediately calls the collaborator's `shutdown()` exactly once,
without waiting for the background loop to exit. -/
theorem c9_amended_shutdown_order :
    Effect.joinBackground ∉ main_effects
    ∧ main_effects.count Effect.mdnsShutdown = 1
    ∧ main_effects.indexOf Effect.sendStop < main_effects.indexOf Effect.mdnsShutdown := by
  decide

end DiscoveryRs
